import Mathlib

/-!
Shallow embedding of the HD108 LED strip low-level driver
(src/src/HD108_lld.c, src/include/HD108_lld.h).

Machine integers are modelled as Nat with explicit reductions modulo
2^w where the C code truncates.  The frame buffer is a list of byte
values.  Bit-fields of the pixel struct are laid out least-significant
field first on the little-endian host, as in the source, so the memory
image of a pixel is fixed by the struct declaration; the byte-image
function below encodes exactly that layout.  External ESP-IDF calls
(allocation, SPI bus setup, timer creation) are modelled by an
environment record giving the result each call would return.
-/

namespace HD108

/-- Status codes of the interface functions (hd108_status_t in HD108_lld.h). -/
inductive hd108_status_t where
  | HD108_LLD_OK
  | HD108_LLD_ERROR_UNKNOWN
  | HD108_LLD_ERROR_INVALID
  | HD108_LLD_ERROR_SPI_IN_USE
  | HD108_LLD_ERROR_NO_DMA
  | HD108_LLD_ERROR_NO_MEMORY
  | HD108_LLD_ERROR_NO_CS
  | HD108_LLD_ERROR_LENGTH
  | HD108_LLD_ERROR_INDEX
  | HD108_LLD_ERROR_DATA_RATE
  deriving DecidableEq, Repr

/-- Result codes of the external ESP-IDF calls, as far as the driver
distinguishes them; ESP_FAIL_OTHER stands for every code the driver
maps through its default switch arm. -/
inductive esp_err_t where
  | ESP_OK
  | ESP_ERR_INVALID_ARG
  | ESP_ERR_INVALID_STATE
  | ESP_ERR_NOT_FOUND
  | ESP_ERR_NO_MEM
  | ESP_FAIL_OTHER
  deriving DecidableEq, Repr

/-- Minimum number of LEDs (HD108_LLD_MIN_COUNT). -/
def HD108_LLD_MIN_COUNT : Nat := 1

/-- Maximum number of LEDs (HD108_LLD_MAX_COUNT). -/
def HD108_LLD_MAX_COUNT : Nat := 1024

/-- Maximum SPI speed, 40 MHz (HD108_LLD_MAX_SPI_SPEED). -/
def HD108_LLD_MAX_SPI_SPEED : Nat := 40000000

/-- Number of 0 bytes at the beginning of the transaction (HD108_LLD_NUM_OF_0S). -/
def HD108_LLD_NUM_OF_0S : Nat := 16

/-- Enumerated update frequencies (hd108_update_frequency_hz_t). -/
def hd108_update_frequencies : List Nat := [1, 2, 5, 10, 20, 24, 25, 30, 50, 60, 100, 120]

/-- Pixel descriptor (hd108_pixel_t).  Fields cl_blue, cl_green, cl_red are
5-bit bit-fields, bit_start is the unnamed 1-bit field of the first 16-bit
unit (named via the overlay struct hd108_pixel_data_t in HD108_lld.c);
red, green, blue are 16-bit colour values. -/
structure hd108_pixel_t where
  cl_blue : Nat
  cl_green : Nat
  cl_red : Nat
  bit_start : Nat
  red : Nat
  green : Nat
  blue : Nat
  deriving DecidableEq, Repr

/-- Low byte of a 16-bit word. -/
def lo_byte (w : Nat) : Nat := w % 256

/-- High byte of a 16-bit word. -/
def hi_byte (w : Nat) : Nat := w / 256 % 256

/-- First 16-bit unit of the pixel struct: bit-fields packed least
significant first (cl_blue bits 0-4, cl_green bits 5-9, cl_red bits
10-14, start bit 15), each field reduced to its declared width as C
bit-field assignment does. -/
def hd108_word0 (p : hd108_pixel_t) : Nat :=
  p.cl_blue % 32 + 32 * (p.cl_green % 32) + 1024 * (p.cl_red % 32) + 32768 * (p.bit_start % 2)

/-- Little-endian memory image of a pixel struct on the ESP32 host:
four 16-bit words (word0, red, green, blue), each low byte first. -/
def hd108_pixel_bytes (p : hd108_pixel_t) : List Nat :=
  [lo_byte (hd108_word0 p), hi_byte (hd108_word0 p),
   lo_byte (p.red % 65536), hi_byte (p.red % 65536),
   lo_byte (p.green % 65536), hi_byte (p.green % 65536),
   lo_byte (p.blue % 65536), hi_byte (p.blue % 65536)]

/-- hd108_lld_copy_pixel: copies the 8 source bytes to the destination,
swapping the two bytes of each 16-bit word (little endian to big endian). -/
def hd108_lld_copy_pixel (src : List Nat) : List Nat :=
  [src.getD 1 0, src.getD 0 0, src.getD 3 0, src.getD 2 0,
   src.getD 5 0, src.getD 4 0, src.getD 7 0, src.getD 6 0]

/-- Overwrite the bytes of buf at offsets [off, off + data.length) with
data, leaving every other byte as it was; models memcpy of data into a
larger buffer. -/
def write_bytes (buf : List Nat) (off : Nat) (data : List Nat) : List Nat :=
  (List.range buf.length).map fun j =>
    if off ≤ j ∧ j < off + data.length then data.getD (j - off) 0 else buf.getD j 0

/-- Read n bytes of buf starting at offset off. -/
def read_bytes (buf : List Nat) (off n : Nat) : List Nat :=
  (List.range n).map fun j => buf.getD (off + j) 0

/-- Driver context (hd108_ctx_t).  The SPI transaction record is
flattened to the TX buffer it owns; the device handle is external
state with no bearing on the modelled behaviour. -/
structure hd108_ctx_t where
  tx_buffer : List Nat
  callback : Option Unit
  strip_length : Nat
  deriving DecidableEq, Repr

/-- Configuration descriptor (hd108_configuration_t).  The update
callback is modelled by its nullness only (none = NULL). -/
structure hd108_configuration_t where
  spi_host : Nat
  spi_speed_hz : Nat
  pin_mosi : Nat
  pin_clk : Nat
  count : Nat
  frequency_hz : Nat
  update_function : Option Unit
  deriving DecidableEq, Repr

/-- Results the external ESP-IDF calls would return, in call order. -/
structure hd108_env_t where
  calloc_ok : Bool
  heap_caps_malloc_ok : Bool
  spi_bus_initialize_err : esp_err_t
  spi_bus_add_device_err : esp_err_t
  esp_timer_create_err : esp_err_t
  esp_timer_start_periodic_err : esp_err_t
  deriving DecidableEq, Repr

/-- hd108_get_update_period_time: timer period in microseconds,
1000000 / freq_hz with C integer (truncating) division. -/
def hd108_get_update_period_time (freq_hz : Nat) : Nat := 1000000 / freq_hz

/-- hd108_lld_start_timer_for_ctx: creates the periodic timer, then
starts it with period hd108_get_update_period_time freq; returns the
esp error code together with the period passed to
esp_timer_start_periodic (0 if it is never called). -/
def hd108_lld_start_timer_for_ctx (env : hd108_env_t) (freq : Nat) : esp_err_t × Nat :=
  if env.esp_timer_create_err ≠ esp_err_t.ESP_OK then (env.esp_timer_create_err, 0)
  else (env.esp_timer_start_periodic_err, hd108_get_update_period_time freq)

/-- The tail of hd108_lld_init after the four configuration checks:
context allocation, buffer allocation, SPI bus init, SPI device add and
timer start, each error translated exactly as the switch statements of
the source translate it; on full success the zero-filled context is
returned. -/
def hd108_lld_init_attach (env : hd108_env_t) (freq : Nat) (ctx : hd108_ctx_t) :
    Except hd108_status_t hd108_ctx_t :=
  if env.calloc_ok = false then
    Except.error hd108_status_t.HD108_LLD_ERROR_NO_MEMORY
  else if env.heap_caps_malloc_ok = false then
    Except.error hd108_status_t.HD108_LLD_ERROR_NO_MEMORY
  else
    match env.spi_bus_initialize_err with
    | esp_err_t.ESP_ERR_INVALID_ARG => Except.error hd108_status_t.HD108_LLD_ERROR_INVALID
    | esp_err_t.ESP_ERR_INVALID_STATE => Except.error hd108_status_t.HD108_LLD_ERROR_SPI_IN_USE
    | esp_err_t.ESP_ERR_NOT_FOUND => Except.error hd108_status_t.HD108_LLD_ERROR_NO_DMA
    | esp_err_t.ESP_ERR_NO_MEM => Except.error hd108_status_t.HD108_LLD_ERROR_NO_MEMORY
    | esp_err_t.ESP_FAIL_OTHER => Except.error hd108_status_t.HD108_LLD_ERROR_UNKNOWN
    | esp_err_t.ESP_OK =>
      match env.spi_bus_add_device_err with
      | esp_err_t.ESP_ERR_INVALID_ARG => Except.error hd108_status_t.HD108_LLD_ERROR_INVALID
      | esp_err_t.ESP_ERR_NOT_FOUND => Except.error hd108_status_t.HD108_LLD_ERROR_NO_CS
      | esp_err_t.ESP_ERR_NO_MEM => Except.error hd108_status_t.HD108_LLD_ERROR_NO_MEMORY
      | esp_err_t.ESP_ERR_INVALID_STATE => Except.error hd108_status_t.HD108_LLD_ERROR_UNKNOWN
      | esp_err_t.ESP_FAIL_OTHER => Except.error hd108_status_t.HD108_LLD_ERROR_UNKNOWN
      | esp_err_t.ESP_OK =>
        match (hd108_lld_start_timer_for_ctx env freq).fst with
        | esp_err_t.ESP_ERR_INVALID_ARG => Except.error hd108_status_t.HD108_LLD_ERROR_INVALID
        | esp_err_t.ESP_ERR_INVALID_STATE => Except.error hd108_status_t.HD108_LLD_ERROR_SPI_IN_USE
        | esp_err_t.ESP_ERR_NO_MEM => Except.error hd108_status_t.HD108_LLD_ERROR_NO_MEMORY
        | esp_err_t.ESP_ERR_NOT_FOUND => Except.error hd108_status_t.HD108_LLD_ERROR_UNKNOWN
        | esp_err_t.ESP_FAIL_OTHER => Except.error hd108_status_t.HD108_LLD_ERROR_UNKNOWN
        | esp_err_t.ESP_OK => Except.ok ctx

/-- hd108_lld_init: the four configuration checks in source order
(strip length, SPI speed, callback, data rate), then allocation and
attachment.  buffer_len is a uint16_t, rate a uint32_t, hence the
explicit moduli. -/
def hd108_lld_init (env : hd108_env_t) (cfg : hd108_configuration_t) :
    Except hd108_status_t hd108_ctx_t :=
  if cfg.count < HD108_LLD_MIN_COUNT ∨ HD108_LLD_MAX_COUNT < cfg.count then
    Except.error hd108_status_t.HD108_LLD_ERROR_LENGTH
  else if HD108_LLD_MAX_SPI_SPEED < cfg.spi_speed_hz then
    Except.error hd108_status_t.HD108_LLD_ERROR_INVALID
  else if cfg.update_function = none then
    Except.error hd108_status_t.HD108_LLD_ERROR_INVALID
  else
    let buffer_len := (HD108_LLD_NUM_OF_0S + cfg.count * 8) % 65536
    let rate := buffer_len * 8 * cfg.frequency_hz * 2 % 4294967296
    if cfg.spi_speed_hz < rate then
      Except.error hd108_status_t.HD108_LLD_ERROR_DATA_RATE
    else
      hd108_lld_init_attach env cfg.frequency_hz
        { tx_buffer := List.replicate buffer_len 0,
          callback := cfg.update_function,
          strip_length := cfg.count }

/-- hd108_lld_set_pixel: bounds check against the strip length, then
set the start bit in the caller-supplied descriptor and copy its byte
image (byte-swapped) into the slot at offset HD108_LLD_NUM_OF_0S +
8 * index of the TX buffer.  Returns the status, the updated context
and the (possibly mutated) descriptor. -/
def hd108_lld_set_pixel (ctx : hd108_ctx_t) (index : Nat) (pixel : hd108_pixel_t) :
    hd108_status_t × hd108_ctx_t × hd108_pixel_t :=
  if ctx.strip_length ≤ index then
    (hd108_status_t.HD108_LLD_ERROR_INDEX, ctx, pixel)
  else
    let pixel2 := { pixel with bit_start := 1 }
    let dst := write_bytes ctx.tx_buffer (HD108_LLD_NUM_OF_0S + 8 * index)
      (hd108_lld_copy_pixel (hd108_pixel_bytes pixel2))
    (hd108_status_t.HD108_LLD_OK, { ctx with tx_buffer := dst }, pixel2)

/-- A sequence of set_pixel calls applied to a context, threading the
context through and discarding statuses and descriptors. -/
def hd108_apply_set_pixels (ctx : hd108_ctx_t) (ops : List (Nat × hd108_pixel_t)) : hd108_ctx_t :=
  ops.foldl (fun c op => (hd108_lld_set_pixel c op.fst op.snd).snd.fst) ctx

/-- Sample environment in which every external ESP-IDF call succeeds. -/
def sample_env : hd108_env_t :=
  { calloc_ok := true, heap_caps_malloc_ok := true,
    spi_bus_initialize_err := esp_err_t.ESP_OK,
    spi_bus_add_device_err := esp_err_t.ESP_OK,
    esp_timer_create_err := esp_err_t.ESP_OK,
    esp_timer_start_periodic_err := esp_err_t.ESP_OK }

/-- Sample environment in which every external ESP-IDF call fails. -/
def failing_env : hd108_env_t :=
  { calloc_ok := false, heap_caps_malloc_ok := false,
    spi_bus_initialize_err := esp_err_t.ESP_FAIL_OTHER,
    spi_bus_add_device_err := esp_err_t.ESP_FAIL_OTHER,
    esp_timer_create_err := esp_err_t.ESP_FAIL_OTHER,
    esp_timer_start_periodic_err := esp_err_t.ESP_FAIL_OTHER }

/-- Sample valid configuration: one LED, 40 MHz, 60 Hz. -/
def sample_cfg : hd108_configuration_t :=
  { spi_host := 2, spi_speed_hz := 40000000, pin_mosi := 23, pin_clk := 18,
    count := 1, frequency_hz := 60, update_function := some () }

/-- The context produced by a successful initialization with sample_cfg. -/
def sample_ctx : hd108_ctx_t :=
  { tx_buffer := List.replicate 24 0, callback := some (), strip_length := 1 }

/-- Sample pixel, the one of the encoding round-trip of the spec. -/
def sample_pixel : hd108_pixel_t :=
  { cl_blue := 15, cl_green := 7, cl_red := 3, bit_start := 0,
    red := 0x1234, green := 0x5678, blue := 0x9ABC }

lemma range_map_getD (n j : Nat) (f : Nat → Nat) (h : j < n) :
    ((List.range n).map f).getD j 0 = f j := by
  simp [List.getD_eq_getElem?_getD, List.getElem?_map, List.getElem?_range, h]

lemma getD_len_le (l : List Nat) (j : Nat) (h : l.length ≤ j) : l.getD j 0 = 0 := by
  simp [List.getD_eq_getElem?_getD, List.getElem?_eq_none h]

lemma getD_of_lt (l : List Nat) (j : Nat) (h : j < l.length) : l.getD j 0 = l[j] := by
  simp [List.getD_eq_getElem?_getD, List.getElem?_eq_getElem h]

lemma write_bytes_length (buf data : List Nat) (off : Nat) :
    (write_bytes buf off data).length = buf.length := by
  simp [write_bytes]

lemma write_bytes_getD_out (buf data : List Nat) (off j : Nat)
    (h : j < off ∨ off + data.length ≤ j) :
    (write_bytes buf off data).getD j 0 = buf.getD j 0 := by
  rcases Nat.lt_or_ge j buf.length with hj | hj
  · rw [write_bytes, range_map_getD _ _ _ hj, if_neg (by omega)]
  · rw [getD_len_le _ _ (by rw [write_bytes_length]; exact hj), getD_len_le _ _ hj]

lemma write_bytes_getD_in (buf data : List Nat) (off j : Nat)
    (h1 : off ≤ j) (h2 : j < off + data.length) (h3 : j < buf.length) :
    (write_bytes buf off data).getD j 0 = data.getD (j - off) 0 := by
  rw [write_bytes, range_map_getD _ _ _ h3, if_pos ⟨h1, h2⟩]

lemma read_bytes_length (buf : List Nat) (off n : Nat) : (read_bytes buf off n).length = n := by
  simp [read_bytes]

lemma read_bytes_write_bytes (buf data : List Nat) (off : Nat)
    (h : off + data.length ≤ buf.length) :
    read_bytes (write_bytes buf off data) off data.length = data := by
  apply List.ext_getElem
  · simp [read_bytes]
  · intro j hj1 hj2
    rw [read_bytes_length] at hj1
    simp only [read_bytes]
    rw [List.getElem_map, List.getElem_range]
    rw [write_bytes_getD_in buf data off (off + j) (by omega) (by omega) (by omega)]
    rw [Nat.add_sub_cancel_left]
    exact getD_of_lt _ _ hj1

lemma replicate_getD_zero (n j : Nat) : (List.replicate n (0:Nat)).getD j 0 = 0 := by
  rcases Nat.lt_or_ge j n with h | h
  · simp [List.getD_eq_getElem?_getD, List.getElem?_replicate, h]
  · exact getD_len_le _ _ (by simpa using h)

lemma init_attach_ne_data_rate (env : hd108_env_t) (freq : Nat) (ctx : hd108_ctx_t) :
    hd108_lld_init_attach env freq ctx ≠
      Except.error hd108_status_t.HD108_LLD_ERROR_DATA_RATE := by
  unfold hd108_lld_init_attach
  split
  · simp
  split
  · simp
  split <;> try simp
  split <;> try simp
  split <;> simp

lemma init_attach_ok (env : hd108_env_t) (freq : Nat) (ctx c : hd108_ctx_t)
    (h : hd108_lld_init_attach env freq ctx = Except.ok c) : c = ctx := by
  unfold hd108_lld_init_attach at h
  split at h
  · simp at h
  split at h
  · simp at h
  split at h <;> try simp at h
  split at h <;> try simp at h
  split at h <;> simp at h
  exact h.symm

lemma set_pixel_keeps_padding (ctx : hd108_ctx_t) (i : Nat) (p : hd108_pixel_t) (j : Nat) (hj : j < 16) :
    (hd108_lld_set_pixel ctx i p).snd.fst.tx_buffer.getD j 0 = ctx.tx_buffer.getD j 0 := by
  by_cases h : ctx.strip_length ≤ i
  · rw [hd108_lld_set_pixel, if_pos h]
  · simp only [hd108_lld_set_pixel, if_neg h]
    apply write_bytes_getD_out
    left
    unfold HD108_LLD_NUM_OF_0S
    omega

lemma apply_set_pixels_keep_padding (ops : List (Nat × hd108_pixel_t)) :
    ∀ (ctx : hd108_ctx_t) (j : Nat), j < 16 → ctx.tx_buffer.getD j 0 = 0 →
      (hd108_apply_set_pixels ctx ops).tx_buffer.getD j 0 = 0 := by
  induction ops with
  | nil => intro ctx j hj h0; simpa [hd108_apply_set_pixels] using h0
  | cons op rest ih =>
      intro ctx j hj h0
      show (hd108_apply_set_pixels
        ((hd108_lld_set_pixel ctx op.fst op.snd).snd.fst) rest).tx_buffer.getD j 0 = 0
      exact ih _ j hj (by rw [set_pixel_keeps_padding _ _ _ _ hj]; exact h0)

lemma freq_le_120 (F : Nat) (hF : F ∈ hd108_update_frequencies) : F ≤ 120 := by
  fin_cases hF <;> decide

/-- C1: for every pixel descriptor and every successful
hd108_lld_set_pixel call, the 8-byte wire slot written equals the four
16-bit words word0 = (start bit 15 set, bits 14-10 = current red,
bits 9-5 = current green, bits 4-0 = current blue), then the red,
green and blue intensities, each emitted most significant byte first;
in particular the first byte of the slot always has its top bit set,
regardless of the prior value of the reserved bit of the input
descriptor (the statement holds for every p, whatever p.bit_start is). -/
theorem C1_wire_slot (ctx : hd108_ctx_t) (index : Nat) (p : hd108_pixel_t)
    (hidx : index < ctx.strip_length)
    (hlen : ctx.tx_buffer.length = 16 + 8 * ctx.strip_length) :
    (hd108_lld_set_pixel ctx index p).fst = hd108_status_t.HD108_LLD_OK ∧
    read_bytes (hd108_lld_set_pixel ctx index p).snd.fst.tx_buffer (16 + 8 * index) 8 =
      [hi_byte (32768 + 1024 * (p.cl_red % 32) + 32 * (p.cl_green % 32) + p.cl_blue % 32),
       lo_byte (32768 + 1024 * (p.cl_red % 32) + 32 * (p.cl_green % 32) + p.cl_blue % 32),
       hi_byte (p.red % 65536), lo_byte (p.red % 65536),
       hi_byte (p.green % 65536), lo_byte (p.green % 65536),
       hi_byte (p.blue % 65536), lo_byte (p.blue % 65536)] ∧
    128 ≤ (read_bytes (hd108_lld_set_pixel ctx index p).snd.fst.tx_buffer
      (16 + 8 * index) 8).getD 0 0 := by
  have hnotle : ¬ ctx.strip_length ≤ index := by omega
  have hw : hd108_word0 { p with bit_start := 1 } =
      32768 + 1024 * (p.cl_red % 32) + 32 * (p.cl_green % 32) + p.cl_blue % 32 := by
    simp only [hd108_word0]
    omega
  have hread : read_bytes (hd108_lld_set_pixel ctx index p).snd.fst.tx_buffer
      (16 + 8 * index) 8 =
      [hi_byte (32768 + 1024 * (p.cl_red % 32) + 32 * (p.cl_green % 32) + p.cl_blue % 32),
       lo_byte (32768 + 1024 * (p.cl_red % 32) + 32 * (p.cl_green % 32) + p.cl_blue % 32),
       hi_byte (p.red % 65536), lo_byte (p.red % 65536),
       hi_byte (p.green % 65536), lo_byte (p.green % 65536),
       hi_byte (p.blue % 65536), lo_byte (p.blue % 65536)] := by
    simp only [hd108_lld_set_pixel, if_neg hnotle]
    have h8 : (hd108_lld_copy_pixel (hd108_pixel_bytes { p with bit_start := 1 })).length = 8 :=
      rfl
    have hle : (HD108_LLD_NUM_OF_0S + 8 * index) +
        (hd108_lld_copy_pixel (hd108_pixel_bytes { p with bit_start := 1 })).length ≤
        ctx.tx_buffer.length := by
      rw [h8]; unfold HD108_LLD_NUM_OF_0S; omega
    have hrw := read_bytes_write_bytes ctx.tx_buffer
      (hd108_lld_copy_pixel (hd108_pixel_bytes { p with bit_start := 1 }))
      (HD108_LLD_NUM_OF_0S + 8 * index) hle
    rw [h8] at hrw
    have hoff : HD108_LLD_NUM_OF_0S + 8 * index = 16 + 8 * index := by
      unfold HD108_LLD_NUM_OF_0S; omega
    rw [hoff] at hrw
    rw [hoff, hrw]
    simp [hd108_lld_copy_pixel, hd108_pixel_bytes, hw]
  refine ⟨?_, hread, ?_⟩
  · simp only [hd108_lld_set_pixel, if_neg hnotle]
  · rw [hread]
    simp only [List.getD_cons_zero, hi_byte]
    omega

/-- Witness for C1 at the sample context and the sample pixel (whose
reserved bit is 0 on input). -/
theorem C1_wire_slot_witness :
    0 < sample_ctx.strip_length ∧
    (hd108_lld_set_pixel sample_ctx 0 sample_pixel).fst = hd108_status_t.HD108_LLD_OK :=
  ⟨by decide, (C1_wire_slot sample_ctx 0 sample_pixel (by decide) (by decide)).1⟩

/-- C2: for every strip length in [1,1024], every enumerated
frequency, and every SPI speed at most 40 MHz with a non-null
callback, initialization avoids the data-rate error exactly when
(16 + 8 * L) * 8 * F * 2 is at most the SPI speed, for every
environment of external call results. -/
theorem C2_feasibility (env : hd108_env_t) (cfg : hd108_configuration_t)
    (hL1 : 1 ≤ cfg.count) (hL2 : cfg.count ≤ 1024)
    (hF : cfg.frequency_hz ∈ hd108_update_frequencies)
    (hS : cfg.spi_speed_hz ≤ 40000000)
    (hcb : cfg.update_function ≠ none) :
    (hd108_lld_init env cfg ≠ Except.error hd108_status_t.HD108_LLD_ERROR_DATA_RATE) ↔
      (16 + 8 * cfg.count) * 8 * cfg.frequency_hz * 2 ≤ cfg.spi_speed_hz := by
  have hF120 : cfg.frequency_hz ≤ 120 := freq_le_120 _ hF
  have hbl : (HD108_LLD_NUM_OF_0S + cfg.count * 8) % 65536 = 16 + 8 * cfg.count := by
    unfold HD108_LLD_NUM_OF_0S; omega
  have h1 : 16 + 8 * cfg.count ≤ 8208 := by omega
  have hprod : (16 + 8 * cfg.count) * 8 * cfg.frequency_hz * 2 ≤ 8208 * 8 * 120 * 2 :=
    Nat.mul_le_mul (Nat.mul_le_mul (Nat.mul_le_mul h1 (le_refl 8)) hF120) (le_refl 2)
  have hmod : (16 + 8 * cfg.count) * 8 * cfg.frequency_hz * 2 % 4294967296 =
      (16 + 8 * cfg.count) * 8 * cfg.frequency_hz * 2 :=
    Nat.mod_eq_of_lt (by omega)
  simp only [hd108_lld_init]
  rw [if_neg (show ¬ (cfg.count < HD108_LLD_MIN_COUNT ∨ HD108_LLD_MAX_COUNT < cfg.count) by
    unfold HD108_LLD_MIN_COUNT HD108_LLD_MAX_COUNT; omega)]
  rw [if_neg (show ¬ HD108_LLD_MAX_SPI_SPEED < cfg.spi_speed_hz by
    unfold HD108_LLD_MAX_SPI_SPEED; omega)]
  rw [if_neg hcb]
  rw [hbl, hmod]
  rcases Nat.lt_or_ge cfg.spi_speed_hz
    ((16 + 8 * cfg.count) * 8 * cfg.frequency_hz * 2) with hc | hc
  · rw [if_pos hc]
    exact iff_of_false (by simp) (by omega)
  · rw [if_neg (by omega)]
    exact iff_of_true (init_attach_ne_data_rate _ _ _) hc

/-- Witness for C2 at the sample configuration (L = 1, F = 60 Hz,
40 MHz), whose required rate 23040 fits the bus speed. -/
theorem C2_feasibility_witness :
    (16 + 8 * sample_cfg.count) * 8 * sample_cfg.frequency_hz * 2 ≤ sample_cfg.spi_speed_hz ∧
    hd108_lld_init sample_env sample_cfg ≠
      Except.error hd108_status_t.HD108_LLD_ERROR_DATA_RATE :=
  ⟨by decide, (C2_feasibility sample_env sample_cfg (by decide) (by decide) (by decide)
    (by decide) (by decide)).mpr (by decide)⟩

/-- C3 as stated is false: word0 for current levels (3,7,15) is
0x8CEF, not 0x8DEF, and the code emits each word most significant byte
first, so the slot written for the pixel of the round-trip example is
not the claimed byte list. -/
theorem C3_encoding_counterexample :
    (0x8000 ||| (3 <<< 10) ||| (7 <<< 5) ||| 15 : Nat) ≠ 0x8DEF ∧
    read_bytes (hd108_lld_set_pixel sample_ctx 0 sample_pixel).snd.fst.tx_buffer 16 8 ≠
      [0xEF, 0x8D, 0x34, 0x12, 0x78, 0x56, 0xBC, 0x9A] := by
  constructor
  · decide
  · decide

/-- C3 amended: word0 = 0x8000 ||| (3 <<< 10) ||| (7 <<< 5) ||| 15 =
0x8CEF, and the 8-byte wire slot holds the four words most significant
byte first: [0x8C, 0xEF, 0x12, 0x34, 0x56, 0x78, 0x9A, 0xBC]. -/
theorem C3_encoding_round_trip :
    (0x8000 ||| (3 <<< 10) ||| (7 <<< 5) ||| 15 : Nat) = 0x8CEF ∧
    read_bytes (hd108_lld_set_pixel sample_ctx 0 sample_pixel).snd.fst.tx_buffer 16 8 =
      [0x8C, 0xEF, 0x12, 0x34, 0x56, 0x78, 0x9A, 0xBC] := by
  constructor
  · decide
  · decide

/-- C4: for every context with strip length N and every index with
index ≥ N, hd108_lld_set_pixel returns the index-out-of-range status
and the frame buffer is byte-for-byte unchanged by the call. -/
theorem C4_index_out_of_range (ctx : hd108_ctx_t) (index : Nat) (p : hd108_pixel_t)
    (h : ctx.strip_length ≤ index) :
    (hd108_lld_set_pixel ctx index p).fst = hd108_status_t.HD108_LLD_ERROR_INDEX ∧
    (hd108_lld_set_pixel ctx index p).snd.fst.tx_buffer = ctx.tx_buffer := by
  rw [hd108_lld_set_pixel, if_pos h]
  exact ⟨rfl, rfl⟩

/-- Witness for C4 at index = strip_length = 1. -/
theorem C4_index_out_of_range_witness :
    sample_ctx.strip_length ≤ 1 ∧
    (hd108_lld_set_pixel sample_ctx 1 sample_pixel).fst =
      hd108_status_t.HD108_LLD_ERROR_INDEX :=
  ⟨by decide, (C4_index_out_of_range sample_ctx 1 sample_pixel (by decide)).1⟩

/-- C5: every successful hd108_lld_set_pixel call with index i writes
only inside the 8-byte slot at byte offset 16 + 8 * i: every byte of
the buffer outside [16 + 8 * i, 16 + 8 * i + 8) is unchanged. -/
theorem C5_write_confined (ctx : hd108_ctx_t) (index j : Nat) (p : hd108_pixel_t)
    (hidx : index < ctx.strip_length)
    (hj : j < 16 + 8 * index ∨ 16 + 8 * index + 8 ≤ j) :
    (hd108_lld_set_pixel ctx index p).fst = hd108_status_t.HD108_LLD_OK ∧
    (hd108_lld_set_pixel ctx index p).snd.fst.tx_buffer.getD j 0 = ctx.tx_buffer.getD j 0 := by
  have hnotle : ¬ ctx.strip_length ≤ index := by omega
  simp only [hd108_lld_set_pixel, if_neg hnotle]
  refine ⟨trivial, ?_⟩
  apply write_bytes_getD_out
  simp only [hd108_lld_copy_pixel, List.length_cons, List.length_nil, HD108_LLD_NUM_OF_0S]
  omega

/-- Witness for C5: the padding byte at offset 0 is untouched by a
successful write at index 0. -/
theorem C5_write_confined_witness :
    0 < sample_ctx.strip_length ∧
    (hd108_lld_set_pixel sample_ctx 0 sample_pixel).snd.fst.tx_buffer.getD 0 0 =
      sample_ctx.tx_buffer.getD 0 0 :=
  ⟨by decide,
   (C5_write_confined sample_ctx 0 0 sample_pixel (by decide) (Or.inl (by decide))).2⟩

/-- C6: after a successful initialization the first 16 bytes of the
frame buffer are zero, and they stay zero after any sequence of
hd108_lld_set_pixel calls, since every slot offset is at least 16. -/
theorem C6_padding_zero (env : hd108_env_t) (cfg : hd108_configuration_t) (ctx : hd108_ctx_t)
    (h : hd108_lld_init env cfg = Except.ok ctx)
    (ops : List (Nat × hd108_pixel_t)) (j : Nat) (hj : j < 16) :
    ctx.tx_buffer.getD j 0 = 0 ∧
    (hd108_apply_set_pixels ctx ops).tx_buffer.getD j 0 = 0 := by
  have hctx : ctx.tx_buffer = List.replicate ((HD108_LLD_NUM_OF_0S + cfg.count * 8) % 65536) 0 := by
    simp only [hd108_lld_init] at h
    split at h
    · simp at h
    split at h
    · simp at h
    split at h
    · simp at h
    split at h
    · simp at h
    rw [init_attach_ok _ _ _ _ h]
  have h0 : ctx.tx_buffer.getD j 0 = 0 := by rw [hctx]; exact replicate_getD_zero _ _
  exact ⟨h0, apply_set_pixels_keep_padding ops ctx j hj h0⟩

/-- Witness for C6: successful sample initialization, then one
set_pixel call; padding byte 0 is still zero. -/
theorem C6_padding_zero_witness :
    hd108_lld_init sample_env sample_cfg = Except.ok sample_ctx ∧
    (hd108_apply_set_pixels sample_ctx [(0, sample_pixel)]).tx_buffer.getD 0 0 = 0 :=
  ⟨by rfl,
   (C6_padding_zero sample_env sample_cfg sample_ctx (by rfl) [(0, sample_pixel)] 0
     (by decide)).2⟩

/-- C7: strip length 0 or above 1024 makes hd108_lld_init return the
length error, for every environment (even one whose allocators would
fail, so nothing is allocated) and regardless of the validity of every
other configuration field. -/
theorem C7_length_error (env : hd108_env_t) (cfg : hd108_configuration_t)
    (h : cfg.count = 0 ∨ 1024 < cfg.count) :
    hd108_lld_init env cfg = Except.error hd108_status_t.HD108_LLD_ERROR_LENGTH := by
  rw [hd108_lld_init, if_pos]
  unfold HD108_LLD_MIN_COUNT HD108_LLD_MAX_COUNT
  omega

/-- Witness for C7: count = 1025 with an over-limit SPI speed, a null
callback and failing external calls still yields exactly the length error. -/
theorem C7_length_error_witness :
    hd108_lld_init failing_env
      { spi_host := 2, spi_speed_hz := 50000000, pin_mosi := 23, pin_clk := 18,
        count := 1025, frequency_hz := 60, update_function := none } =
    Except.error hd108_status_t.HD108_LLD_ERROR_LENGTH :=
  C7_length_error _ _ (Or.inr (by decide))

/-- C8: with strip length in [1,1024], SPI speed at most 40 MHz and a
null update callback, hd108_lld_init returns the invalid-configuration
error for every environment (in particular before any allocation can
happen), so no context reaches the caller. -/
theorem C8_null_callback (env : hd108_env_t) (cfg : hd108_configuration_t)
    (h1 : 1 ≤ cfg.count) (h2 : cfg.count ≤ 1024)
    (h3 : cfg.spi_speed_hz ≤ 40000000)
    (h4 : cfg.update_function = none) :
    hd108_lld_init env cfg = Except.error hd108_status_t.HD108_LLD_ERROR_INVALID := by
  rw [hd108_lld_init,
    if_neg (by unfold HD108_LLD_MIN_COUNT HD108_LLD_MAX_COUNT; omega),
    if_neg (by unfold HD108_LLD_MAX_SPI_SPEED; omega), if_pos h4]

/-- Witness for C8: a valid configuration except for the null callback,
in an environment whose allocators would fail. -/
theorem C8_null_callback_witness :
    hd108_lld_init failing_env
      { spi_host := 2, spi_speed_hz := 40000000, pin_mosi := 23, pin_clk := 18,
        count := 1, frequency_hz := 60, update_function := none } =
    Except.error hd108_status_t.HD108_LLD_ERROR_INVALID :=
  C8_null_callback _ _ (by decide) (by decide) (by decide) (by decide)

/-- C9 as stated is false: 24 is one of the enumerated frequencies and
1,000,000 / 24 truncates (41666 * 24 = 999984), so the division is not
exact for every enumerated frequency. -/
theorem C9_period_counterexample :
    24 ∈ hd108_update_frequencies ∧
    hd108_get_update_period_time 24 = 41666 ∧
    41666 * 24 ≠ 1000000 := by
  refine ⟨by decide, by decide, by decide⟩

/-- C9 amended: for every enumerated frequency F the period is
1,000,000 / F microseconds under truncating division, and that
division is exact precisely for F in (1,2,5,10,20,25,50,100) — it
truncates for 24, 30, 60 and 120 Hz. -/
theorem C9_period_truncating (F : Nat) (hF : F ∈ hd108_update_frequencies) :
    hd108_get_update_period_time F = 1000000 / F ∧
    (hd108_get_update_period_time F * F = 1000000 ↔
      F ∈ ([1, 2, 5, 10, 20, 25, 50, 100] : List Nat)) := by
  fin_cases hF <;> exact ⟨by decide, by decide⟩

/-- Witness for C9 amended, at the truncating frequency 24 Hz and the
exact frequency 50 Hz. -/
theorem C9_period_truncating_witness :
    hd108_get_update_period_time 24 = 1000000 / 24 ∧
    (hd108_get_update_period_time 50 * 50 = 1000000 ↔
      50 ∈ ([1, 2, 5, 10, 20, 25, 50, 100] : List Nat)) :=
  ⟨(C9_period_truncating 24 (by decide)).1, (C9_period_truncating 50 (by decide)).2⟩

/-- C10: hd108_lld_set_pixel mutates the caller-supplied descriptor
itself: with an in-range index it returns the descriptor with the
start bit forced to 1 and every other field unchanged; with an
out-of-range index it returns the descriptor entirely unchanged. -/
theorem C10_descriptor_mutation (ctx : hd108_ctx_t) (index : Nat) (p : hd108_pixel_t) :
    (index < ctx.strip_length →
      (hd108_lld_set_pixel ctx index p).snd.snd = { p with bit_start := 1 }) ∧
    (ctx.strip_length ≤ index →
      (hd108_lld_set_pixel ctx index p).snd.snd = p) := by
  constructor
  · intro h
    rw [hd108_lld_set_pixel, if_neg (by omega)]
  · intro h
    rw [hd108_lld_set_pixel, if_pos h]

/-- Witness for C10: in range the start bit is set and nothing else
changes; out of range the descriptor is untouched. -/
theorem C10_descriptor_mutation_witness :
    (hd108_lld_set_pixel sample_ctx 0 sample_pixel).snd.snd =
      { sample_pixel with bit_start := 1 } ∧
    (hd108_lld_set_pixel sample_ctx 5 sample_pixel).snd.snd = sample_pixel :=
  ⟨(C10_descriptor_mutation sample_ctx 0 sample_pixel).1 (by decide),
   (C10_descriptor_mutation sample_ctx 5 sample_pixel).2 (by decide)⟩

end HD108
